import Mathlib

/-!
Shallow embedding of the display controller in
`examples/common/app_common/src/app_display.c` (esp_agents_firmware).

The controller's singleton state `s_display_data`, the esp_event registrations
made by this file, and the engine-visible state reachable through
`emote_handle` are modelled as one explicit `World` record.  Every call into
the emote engine, the panel, the touch layer or the event bus is recorded as a
`Cmd` in an output trace, so "no command is dispatched" is the trace being
empty.  `esp_err_t` outcomes are the inductive `EspErr`.
-/

namespace AppDisplay

/-- `esp_err_t` values that occur in `app_display.c`:
`ESP_OK`, `ESP_ERR_INVALID_STATE`, `ESP_ERR_INVALID_ARG`, a NotFound-style code
from `esp_board_device_get_handle/get_config`, and a generic hardware failure. -/
inductive EspErr
  | ok
  | invalidState
  | invalidArg
  | notFound
  | hwFail
  deriving DecidableEq, Repr

/-- Message channels of `emote_set_event_msg`:
`EMOTE_MGR_EVT_SPEAK`, `EMOTE_MGR_EVT_SYS`, `EMOTE_MGR_EVT_LISTEN`. -/
inductive EmoteEvt
  | speak
  | sys
  | listen
  deriving DecidableEq, Repr

/-- `(event_base, event_id)` pairs that `display_event_handler` branches on:
`(APP_NETWORK_EVENT, APP_NETWORK_EVENT_QR_DISPLAY)`,
`(WIFI_EVENT, WIFI_EVENT_STA_CONNECTED)`,
`(WIFI_EVENT, WIFI_EVENT_STA_DISCONNECTED)`. -/
inductive EvtKey
  | netQrDisplay
  | wifiStaConnected
  | wifiStaDisconnected
  deriving DecidableEq, Repr

/-- `app_device_text_type_t` channels used by `app_display_set_text`;
`unknown` stands for any enum value outside the three handled cases
(the `default:` branch). -/
inductive TextType
  | user
  | assistant
  | system
  | unknown (n : Nat)
  deriving DecidableEq, Repr

/-- `app_device_system_state_t` values handled by
`app_display_system_state_changed`; `unknown` is any unrecognized value
(the `default:` branch). -/
inductive SystemState
  | listening
  | sleep
  | active
  | unknown (n : Nat)
  deriving DecidableEq, Repr

/-- One externally visible call made by the display controller: emote-engine
commands, panel bring-up primitives, touch configuration and event-bus
(de)registrations. -/
inductive Cmd
  | setEventMsg (e : EmoteEvt) (text : Option String)
  | setAnimEmoji (name : String)
  | setQrcodeData (text : String)
  | setVisible (obj : String) (v : Bool)
  | loadAssets
  | panelClear
  | panelOn
  | registerIoCb
  | labelConfig
  | touchPressInit
  | touchConfigure
  | evtRegister (k : EvtKey)
  | evtUnregister (k : EvtKey)
  deriving DecidableEq, Repr

/-- Observable state held behind `emote_handle` (an external collaborator,
observed through its command interface): the single current emotion, the last
system-channel text, the visibility of the "eye_anim" object, the last QR
payload, and whether assets were loaded. -/
structure EmoteState where
  currentEmotion : Option String
  sysText : Option (Option String)
  eyeAnimVisible : Bool
  qrData : Option String
  assetsLoaded : Bool
  deriving DecidableEq, Repr

/-- `app_display_data_t` (`s_display_data`) together with the esp_event
registrations made by `app_display.c`.  Handles are modelled by presence
flags; `emote_handle` carries the observable engine state when non-NULL. -/
structure World where
  initialized : Bool
  panel_handle : Bool
  io_handle : Bool
  emote_handle : Option EmoteState
  touch_handle : Bool
  gfx_handle : Bool
  h_res : Nat
  v_res : Nat
  touchPollerStarted : Bool
  registrations : List EvtKey
  deriving DecidableEq, Repr

/-- `s_display_data = {0}`: the zero-initialized singleton before `init`. -/
def w0 : World :=
  { initialized := false
    panel_handle := false
    io_handle := false
    emote_handle := none
    touch_handle := false
    gfx_handle := false
    h_res := 0
    v_res := 0
    touchPollerStarted := false
    registrations := [] }

/-- ASCII lower-casing, modelling C `tolower` as used by `strncasecmp`. -/
def asciiLower (c : Char) : Char :=
  if 65 ≤ c.toNat ∧ c.toNat ≤ 90 then Char.ofNat (c.toNat + 32) else c

/-- `strncasecmp(s, t, n) == 0` on NUL-free C strings: compare up to `n`
characters case-insensitively; the end of a list is the NUL terminator, so a
string that ends while the other (and the budget) continues is a mismatch. -/
def strncaseEq : List Char → List Char → Nat → Bool
  | _, _, 0 => true
  | [], [], Nat.succ _ => true
  | [], _ :: _, Nat.succ _ => false
  | _ :: _, [], Nat.succ _ => false
  | a :: s, b :: t, Nat.succ n =>
    if asciiLower a = asciiLower b then strncaseEq s t n else false

/-- The test `strncasecmp(emotion, cand, strlen(cand)) == 0` from
`app_display_is_emotion_valid` / `app_display_set_emotion`. -/
def emotionMatches (input cand : String) : Bool :=
  strncaseEq input.data cand.data cand.data.length

/-- Modelled from the spec: the `DISP_EMOTE_*` string macros come from a
display header that is not part of the repository snapshot; the spec fixes the
emotion set as neutral, happy, sad, crying, angry, sleepy, confused, shocked,
winking, idle (lower-case names, `"SAD!!"` prefix-matches `"sad"`). -/
def DISP_EMOTE_NEUTRAL : String := "neutral"

/-- Modelled from the spec (see `DISP_EMOTE_NEUTRAL`). -/
def DISP_EMOTE_HAPPY : String := "happy"

/-- Modelled from the spec (see `DISP_EMOTE_NEUTRAL`). -/
def DISP_EMOTE_SAD : String := "sad"

/-- Modelled from the spec (see `DISP_EMOTE_NEUTRAL`). -/
def DISP_EMOTE_CRYING : String := "crying"

/-- Modelled from the spec (see `DISP_EMOTE_NEUTRAL`). -/
def DISP_EMOTE_ANGRY : String := "angry"

/-- Modelled from the spec (see `DISP_EMOTE_NEUTRAL`). -/
def DISP_EMOTE_SLEEPY : String := "sleepy"

/-- Modelled from the spec (see `DISP_EMOTE_NEUTRAL`). -/
def DISP_EMOTE_CONFUSED : String := "confused"

/-- Modelled from the spec (see `DISP_EMOTE_NEUTRAL`). -/
def DISP_EMOTE_SHOCKED : String := "shocked"

/-- Modelled from the spec (see `DISP_EMOTE_NEUTRAL`). -/
def DISP_EMOTE_WINKING : String := "winking"

/-- Modelled from the spec (see `DISP_EMOTE_NEUTRAL`). -/
def DISP_EMOTE_IDLE : String := "idle"

/-- `valid_emotions[]` in declaration order (app_display.c lines 49-60). -/
def valid_emotions : List String :=
  [DISP_EMOTE_NEUTRAL, DISP_EMOTE_HAPPY, DISP_EMOTE_SAD, DISP_EMOTE_CRYING,
   DISP_EMOTE_ANGRY, DISP_EMOTE_SLEEPY, DISP_EMOTE_CONFUSED,
   DISP_EMOTE_SHOCKED, DISP_EMOTE_WINKING, DISP_EMOTE_IDLE]

/-- Result of a public operation: the `esp_err_t` return, the state after the
call, and the trace of dispatched external calls. -/
structure Step where
  err : EspErr
  state : World
  out : List Cmd
  deriving DecidableEq, Repr

/-- `emote_set_event_msg(s_display_data.emote_handle, e, text)`: the call is
dispatched unconditionally; the engine's observable system text changes only
when the handle is non-NULL and the channel is the system channel. -/
def emote_set_event_msg (w : World) (e : EmoteEvt) (text : Option String) :
    World × List Cmd :=
  let w2 :=
    match e, w.emote_handle with
    | EmoteEvt.sys, some es =>
      { w with emote_handle := some { es with sysText := some text } }
    | _, _ => w
  (w2, [Cmd.setEventMsg e text])

/-- `emote_set_anim_emoji(s_display_data.emote_handle, name)`. -/
def emote_set_anim_emoji (w : World) (name : String) : World × List Cmd :=
  let w2 :=
    match w.emote_handle with
    | some es =>
      { w with emote_handle := some { es with currentEmotion := some name } }
    | none => w
  (w2, [Cmd.setAnimEmoji name])

/-- `emote_set_qrcode_data(s_display_data.emote_handle, text)`. -/
def emote_set_qrcode_data (w : World) (text : String) : World × List Cmd :=
  let w2 :=
    match w.emote_handle with
    | some es =>
      { w with emote_handle := some { es with qrData := some text } }
    | none => w
  (w2, [Cmd.setQrcodeData text])

/-- `change_emotion_visibility` (app_display.c lines 73-82): returns silently
on a NULL handle, otherwise looks up the "eye_anim" object and sets its
visibility.  The engine is an external collaborator; the named object is
taken to exist whenever the engine handle does. -/
def change_emotion_visibility (w : World) (visible : Bool) :
    World × List Cmd :=
  match w.emote_handle with
  | none => (w, [])
  | some es =>
    ({ w with emote_handle := some { es with eyeAnimVisible := visible } },
     [Cmd.setVisible "eye_anim" visible])

/-- `app_display_set_text` (app_display.c lines 130-154). -/
def app_display_set_text (w : World) (ty : TextType) (text : Option String) :
    Step :=
  if w.initialized then
    match ty with
    | TextType.user => ⟨EspErr.ok, w, []⟩
    | TextType.assistant =>
      match text with
      | some t =>
        if t.length > 0 then
          let r := emote_set_event_msg w EmoteEvt.speak (some t)
          ⟨EspErr.ok, r.1, r.2⟩
        else ⟨EspErr.ok, w, []⟩
      | none => ⟨EspErr.ok, w, []⟩
    | TextType.system =>
      let r := emote_set_event_msg w EmoteEvt.sys text
      ⟨EspErr.ok, r.1, r.2⟩
    | TextType.unknown _ => ⟨EspErr.invalidArg, w, []⟩
  else ⟨EspErr.invalidState, w, []⟩

/-- `app_display_is_emotion_valid` (app_display.c lines 197-205): the loop
returns true on the first `strncasecmp` match, false after the loop. -/
def app_display_is_emotion_valid (emotion : String) : Bool :=
  valid_emotions.any (fun c => emotionMatches emotion c)

/-- `app_display_set_emotion` (app_display.c lines 207-222): requires
`initialized`; the first matching candidate (in declaration order) is passed
to `emote_set_anim_emoji`; no match yields `ESP_ERR_INVALID_ARG`. -/
def app_display_set_emotion (w : World) (emotion : String) : Step :=
  if w.initialized then
    match valid_emotions.find? (fun c => emotionMatches emotion c) with
    | some c =>
      let r := emote_set_anim_emoji w c
      ⟨EspErr.ok, r.1, r.2⟩
    | none => ⟨EspErr.invalidArg, w, []⟩
  else ⟨EspErr.invalidState, w, []⟩

/-- `app_display_system_state_changed` (app_display.c lines 156-184).  In the
`LISTENING` branch the C code overwrites `err` with the result of
`emote_set_event_msg`, which the engine interface reports as success. -/
def app_display_system_state_changed (w : World) (st : SystemState) : Step :=
  if w.initialized then
    match st with
    | SystemState.listening =>
      let r1 := app_display_set_emotion w DISP_EMOTE_IDLE
      let r2 := emote_set_event_msg r1.state EmoteEvt.listen none
      ⟨EspErr.ok, r2.1, r1.out ++ r2.2⟩
    | SystemState.sleep =>
      app_display_set_emotion w DISP_EMOTE_SLEEPY
    | SystemState.active => ⟨EspErr.ok, w, []⟩
    | SystemState.unknown _ => ⟨EspErr.invalidArg, w, []⟩
  else ⟨EspErr.invalidState, w, []⟩

/-- `app_display_send_event` (app_display.c lines 186-195): logs only. -/
def app_display_send_event (w : World) (event : String)
    (message : Option String) : Step :=
  if w.initialized then ⟨EspErr.ok, w, []⟩
  else ⟨EspErr.invalidState, w, []⟩

/-- `display_event_handler` (app_display.c lines 224-242): the QR branch sets
the system prompt, hides the eye animation, pushes the QR payload and, as its
last action, unregisters itself; the two wifi branches set a status text and
the idle emotion. -/
def display_event_handler (w : World) (k : EvtKey) (payload : Option String) :
    World × List Cmd :=
  match k with
  | EvtKey.netQrDisplay =>
    let text := payload.getD ""
    let r1 := app_display_set_text w TextType.system
      (some "Scan QR code with RainMaker")
    let r2 := change_emotion_visibility r1.state false
    let r3 := emote_set_qrcode_data r2.1 text
    let w4 :=
      { r3.1 with registrations := r3.1.registrations.erase EvtKey.netQrDisplay }
    (w4, r1.out ++ r2.2 ++ r3.2 ++ [Cmd.evtUnregister EvtKey.netQrDisplay])
  | EvtKey.wifiStaConnected =>
    let r1 := app_display_set_text w TextType.system (some "WiFi connected")
    let r2 := app_display_set_emotion r1.state DISP_EMOTE_IDLE
    (r2.state, r1.out ++ r2.out)
  | EvtKey.wifiStaDisconnected =>
    let r1 := app_display_set_text w TextType.system (some "WiFi connecting...")
    let r2 := app_display_set_emotion r1.state DISP_EMOTE_IDLE
    (r2.state, r1.out ++ r2.out)

/-- esp_event delivery: the handler runs only if this `(base, id)` pair is
among the registrations made for `display_event_handler`. -/
def deliver_event (w : World) (k : EvtKey) (payload : Option String) :
    World × List Cmd :=
  if k ∈ w.registrations then display_event_handler w k payload else (w, [])

/-- Outcomes of the external board/device/engine collaborators during init:
whether each named lookup succeeds, whether the touch device's inner
`touch_handle` field is non-NULL, whether panel power-on succeeds, whether
`emote_init` returns a working handle, and the configured panel size. -/
structure Env where
  display_lcd_handle_ok : Bool
  display_lcd_config_ok : Bool
  lcd_touch_handle_ok : Bool
  touch_handle_present : Bool
  panel_on_ok : Bool
  emote_init_ok : Bool
  lcd_width : Nat
  lcd_height : Nat
  deriving DecidableEq, Repr

/-- `init_display` (app_display.c lines 299-345): `ESP_RETURN_ON_ERROR` on the
`display_lcd` handle, the `display_lcd` config and the `lcd_touch` handle
lookups, then panel clear, panel on (propagated on failure), orientation and
backlight (best-effort), store handles and resolution, `app_touch_press_init`. -/
def init_display (env : Env) (w : World) : Step :=
  if env.display_lcd_handle_ok = false then ⟨EspErr.notFound, w, []⟩
  else if env.display_lcd_config_ok = false then ⟨EspErr.notFound, w, []⟩
  else if env.lcd_touch_handle_ok = false then ⟨EspErr.notFound, w, []⟩
  else if env.panel_on_ok = false then ⟨EspErr.hwFail, w, [Cmd.panelClear]⟩
  else
    let w2 :=
      { w with
        panel_handle := true
        io_handle := true
        touch_handle := env.touch_handle_present
        h_res := env.lcd_width
        v_res := env.lcd_height }
    ⟨EspErr.ok, w2, [Cmd.panelClear, Cmd.panelOn, Cmd.touchPressInit]⟩

/-- `init_emote` (app_display.c lines 260-297): returns a fresh engine handle
or NULL. -/
def init_emote (env : Env) : Option EmoteState :=
  if env.emote_init_ok then
    some
      { currentEmotion := none
        sysText := none
        eyeAnimVisible := true
        qrData := none
        assetsLoaded := false }
  else none

/-- `app_display_init` (app_display.c lines 347-412): early success when
already initialized; `init_display` failures propagate; the emote handle, the
IO-callback registration, asset loading plus the "Initializing..." toast, and
the touch poller are each guarded on the handles they need; the QR-display
event handler is registered; `initialized` is set and the emotion becomes
idle. -/
def app_display_init (env : Env) (w : World) : Step :=
  if w.initialized then ⟨EspErr.ok, w, []⟩
  else
    let r1 := init_display env w
    if r1.err = EspErr.ok then
      let wa := { r1.state with emote_handle := init_emote env }
      let p2 : World × List Cmd :=
        if wa.io_handle && wa.emote_handle.isSome then (wa, [Cmd.registerIoCb])
        else (wa, [])
      let p3 : World × List Cmd :=
        match p2.1.emote_handle with
        | some es =>
          let wb := { p2.1 with emote_handle := some { es with assetsLoaded := true } }
          let r := emote_set_event_msg wb EmoteEvt.sys (some "Initializing...")
          (r.1, Cmd.loadAssets :: r.2 ++ [Cmd.labelConfig])
        | none => (p2.1, [])
      let wc := { p3.1 with gfx_handle := p3.1.emote_handle.isSome }
      let p4 : World × List Cmd :=
        if wc.touch_handle && wc.gfx_handle then
          ({ wc with touchPollerStarted := true }, [Cmd.touchConfigure])
        else (wc, [])
      let wd :=
        { p4.1 with registrations := p4.1.registrations ++ [EvtKey.netQrDisplay] }
      let we := { wd with initialized := true }
      let r2 := app_display_set_emotion we DISP_EMOTE_IDLE
      ⟨EspErr.ok, r2.state,
        r1.out ++ p2.2 ++ p3.2 ++ p4.2 ++ [Cmd.evtRegister EvtKey.netQrDisplay]
          ++ r2.out⟩
    else ⟨r1.err, r1.state, r1.out⟩

/-- The engine's current emotion as observed through the handle. -/
def currentEmotionOf (w : World) : Option String :=
  match w.emote_handle with
  | some es => es.currentEmotion
  | none => none

/-- The engine's last system-channel text as observed through the handle. -/
def sysTextOf (w : World) : Option (Option String) :=
  match w.emote_handle with
  | some es => es.sysText
  | none => none

/-- An environment in which every collaborator succeeds (valid mocked
handles). -/
def goodEnv : Env :=
  { display_lcd_handle_ok := true
    display_lcd_config_ok := true
    lcd_touch_handle_ok := true
    touch_handle_present := true
    panel_on_ok := true
    emote_init_ok := true
    lcd_width := 320
    lcd_height := 240 }

/-- The state after a successful `app_display_init` from the zero state. -/
def postInit : World := (app_display_init goodEnv w0).state

/-- Spec-side matching rule, written from the spec's words: a match occurs iff
the input begins with the candidate name, compared ignoring case.  To be
compared against `emotionMatches`, which is translated from the
`strncasecmp` call in the source. -/
def ciStartsWith (s cand : String) : Bool :=
  (cand.data.map asciiLower).isPrefixOf (s.data.map asciiLower)

/-- Recognizer for the QR-payload push command, used to count how often the
QR handling logic ran. -/
def isQrPush : Cmd → Bool
  | Cmd.setQrcodeData _ => true
  | _ => false

/-- An environment in which the `lcd_touch` device lookup itself fails. -/
def noTouchEnv : Env :=
  { goodEnv with lcd_touch_handle_ok := false, touch_handle_present := false }

/-- An arbitrary initialized state (all handles absent), used to instantiate
theorems whose only hypothesis is `initialized = true`. -/
def wInit : World := { w0 with initialized := true }

/-! ## Helper lemmas -/

/-- `strncasecmp(s, t, strlen(t)) == 0` holds exactly when the lower-cased
`t` is a prefix of the lower-cased `s`. -/
theorem strncaseEq_eq_isPrefixOf (t s : List Char) :
    strncaseEq s t t.length
      = (t.map asciiLower).isPrefixOf (s.map asciiLower) := by
  induction t generalizing s with
  | nil => cases s <;> rfl
  | cons b t ih =>
    cases s with
    | nil => rfl
    | cons a s =>
      simp only [List.length_cons, strncaseEq, List.map_cons, List.isPrefixOf]
      by_cases h : asciiLower a = asciiLower b
      · rw [if_pos h, ih, h]
        simp
      · rw [if_neg h]
        have hb : (asciiLower b == asciiLower a) = false := by
          simp only [beq_eq_false_iff_ne, ne_eq]
          exact fun hh => h hh.symm
        simp [hb]

/-- The source's matching test agrees with the spec-side matching rule. -/
theorem emotionMatches_eq_ciStartsWith (s cand : String) :
    emotionMatches s cand = ciStartsWith s cand :=
  strncaseEq_eq_isPrefixOf cand.data s.data

/-- A case-insensitive prefix is never longer than the string it prefixes. -/
theorem ciStartsWith_length_le (s cand : String)
    (h : ciStartsWith s cand = true) : cand.data.length ≤ s.data.length := by
  have hp := List.isPrefixOf_iff_prefix.mp h
  have := hp.length_le
  simpa using this

theorem find_idle_eq :
    valid_emotions.find? (fun c => emotionMatches DISP_EMOTE_IDLE c)
      = some DISP_EMOTE_IDLE := by decide

theorem find_sleepy_eq :
    valid_emotions.find? (fun c => emotionMatches DISP_EMOTE_SLEEPY c)
      = some DISP_EMOTE_SLEEPY := by decide

/-! ## Claim theorems -/

/-- C5: for every argument value, calling any mutating public operation
(`app_display_set_text`, `app_display_set_emotion`,
`app_display_system_state_changed`, `app_display_send_event`) before `init`
completes returns `ESP_ERR_INVALID_STATE`, leaves the state unchanged, and
dispatches no engine command. -/
theorem C5_uninitialized_ops_rejected (w : World) (h : w.initialized = false)
    (ty : TextType) (t : Option String) (st : SystemState)
    (e : String) (m : Option String) (s : String) :
    app_display_set_text w ty t = ⟨EspErr.invalidState, w, []⟩
    ∧ app_display_set_emotion w s = ⟨EspErr.invalidState, w, []⟩
    ∧ app_display_system_state_changed w st = ⟨EspErr.invalidState, w, []⟩
    ∧ app_display_send_event w e m = ⟨EspErr.invalidState, w, []⟩ := by
  simp [app_display_set_text, app_display_set_emotion,
        app_display_system_state_changed, app_display_send_event, h]

/-- Witness for C5 at a concrete uninitialized state and concrete arguments. -/
theorem C5_uninitialized_ops_rejected_witness :
    app_display_set_text w0 TextType.assistant (some "hello")
        = ⟨EspErr.invalidState, w0, []⟩
    ∧ app_display_set_emotion w0 "happy" = ⟨EspErr.invalidState, w0, []⟩
    ∧ app_display_system_state_changed w0 SystemState.listening
        = ⟨EspErr.invalidState, w0, []⟩
    ∧ app_display_send_event w0 "evt" none = ⟨EspErr.invalidState, w0, []⟩ :=
  C5_uninitialized_ops_rejected w0 rfl TextType.assistant (some "hello")
    SystemState.listening "evt" none "happy"

/-- C8: calling `app_display_init` again after a successful first call
returns `ESP_OK`, re-runs no bring-up step (empty trace) and leaves the
state unchanged. -/
theorem C8_init_idempotent (env : Env) (w : World) (h : w.initialized = true) :
    app_display_init env w = ⟨EspErr.ok, w, []⟩ := by
  simp [app_display_init, h]

/-- Witness for C8: a second init on the state produced by a successful
first init. -/
theorem C8_init_idempotent_witness :
    app_display_init goodEnv postInit = ⟨EspErr.ok, postInit, []⟩ :=
  C8_init_idempotent goodEnv postInit (by decide)

/-- C9: when initialized, `setText` on the assistant channel with empty or
null text is a no-op returning success, while `"hello"` dispatches exactly
one speak message. -/
theorem C9_assistant_text_guard (w : World) (h : w.initialized = true) :
    app_display_set_text w TextType.assistant (some "") = ⟨EspErr.ok, w, []⟩
    ∧ app_display_set_text w TextType.assistant none = ⟨EspErr.ok, w, []⟩
    ∧ (app_display_set_text w TextType.assistant (some "hello")).out
        = [Cmd.setEventMsg EmoteEvt.speak (some "hello")]
    ∧ (app_display_set_text w TextType.assistant (some "hello")).err
        = EspErr.ok := by
  simp [app_display_set_text, h, emote_set_event_msg,
        show 0 < "hello".length from by decide]

/-- Witness for C9 at a concrete initialized state. -/
theorem C9_assistant_text_guard_witness :
    app_display_set_text wInit TextType.assistant (some "")
        = ⟨EspErr.ok, wInit, []⟩
    ∧ app_display_set_text wInit TextType.assistant none
        = ⟨EspErr.ok, wInit, []⟩
    ∧ (app_display_set_text wInit TextType.assistant (some "hello")).out
        = [Cmd.setEventMsg EmoteEvt.speak (some "hello")]
    ∧ (app_display_set_text wInit TextType.assistant (some "hello")).err
        = EspErr.ok :=
  C9_assistant_text_guard wInit rfl

/-- C10: when initialized, `setText` on the system channel forwards the text
to the engine unconditionally — one sys message for every text value,
including null and the empty string — and returns success. -/
theorem C10_system_text_unconditional (w : World) (t : Option String)
    (h : w.initialized = true) :
    (app_display_set_text w TextType.system t).err = EspErr.ok
    ∧ (app_display_set_text w TextType.system t).out
        = [Cmd.setEventMsg EmoteEvt.sys t] := by
  simp [app_display_set_text, h, emote_set_event_msg]

/-- Witness for C10 with a null text. -/
theorem C10_system_text_unconditional_witness :
    (app_display_set_text wInit TextType.system none).err = EspErr.ok
    ∧ (app_display_set_text wInit TextType.system none).out
        = [Cmd.setEventMsg EmoteEvt.sys none] :=
  C10_system_text_unconditional wInit none rfl

/-- C1: when initialized, `setEmotion` succeeds iff the input begins with
some candidate of the fixed emotion set compared ignoring case (so the input
is at least as long as that candidate); the command dispatched names the
first matching candidate in declaration order; `"Happy"` and `"SAD!!"`
succeed, `"ha"` fails with `ESP_ERR_INVALID_ARG`. -/
theorem C1_setEmotion_ci_first_match (w : World) (s : String)
    (h : w.initialized = true) :
    (((app_display_set_emotion w s).err = EspErr.ok) ↔
      ∃ c ∈ valid_emotions, ciStartsWith s c = true)
    ∧ (∀ c, ciStartsWith s c = true → c.data.length ≤ s.data.length)
    ∧ (∀ c, (app_display_set_emotion w s).out = [Cmd.setAnimEmoji c] →
        ciStartsWith s c = true ∧
        ∃ l1 l2, valid_emotions = l1 ++ c :: l2 ∧
          ∀ x ∈ l1, ciStartsWith s x = false)
    ∧ (app_display_set_emotion w "Happy").err = EspErr.ok
    ∧ (app_display_set_emotion w "SAD!!").err = EspErr.ok
    ∧ (app_display_set_emotion w "ha").err = EspErr.invalidArg := by
  refine ⟨?_, fun c hc => ciStartsWith_length_le s c hc, ?_, ?_, ?_, ?_⟩
  · cases hf : valid_emotions.find? (fun c => emotionMatches s c) with
    | none =>
      have hall := List.find?_eq_none.mp hf
      simp only [app_display_set_emotion, h, if_true, hf]
      constructor
      · intro he; exact EspErr.noConfusion he
      · rintro ⟨c, hc, hcs⟩
        have hx := hall c hc
        rw [emotionMatches_eq_ciStartsWith, hcs] at hx
        exact absurd rfl hx
    | some c =>
      have hp := List.find?_some hf
      have hmem := List.mem_of_find?_eq_some hf
      simp only [app_display_set_emotion, h, if_true, hf]
      refine ⟨fun _ => ⟨c, hmem, ?_⟩, fun _ => trivial⟩
      rwa [emotionMatches_eq_ciStartsWith] at hp
  · cases hf : valid_emotions.find? (fun c => emotionMatches s c) with
    | none =>
      intro c hc
      simp only [app_display_set_emotion, h, if_true, hf] at hc
      exact absurd hc (by simp)
    | some c0 =>
      intro c hc
      simp only [app_display_set_emotion, h, if_true, hf,
                 emote_set_anim_emoji] at hc
      obtain ⟨hpc, as, bs, heq, hprior⟩ := List.find?_eq_some.mp hf
      have hcc : c0 = c := by simpa using hc
      subst hcc
      refine ⟨by rwa [emotionMatches_eq_ciStartsWith] at hpc,
              as, bs, heq, fun x hx => ?_⟩
      have hb := hprior x hx
      rw [Bool.not_eq_true'] at hb
      rwa [emotionMatches_eq_ciStartsWith] at hb
  · simp [app_display_set_emotion, h, emote_set_anim_emoji,
          show valid_emotions.find? (fun c => emotionMatches "Happy" c)
            = some "happy" from by decide]
  · simp [app_display_set_emotion, h, emote_set_anim_emoji,
          show valid_emotions.find? (fun c => emotionMatches "SAD!!" c)
            = some "sad" from by decide]
  · simp [app_display_set_emotion, h,
          show valid_emotions.find? (fun c => emotionMatches "ha" c)
            = none from by decide]

/-- Witness for C1 at a concrete initialized state. -/
theorem C1_setEmotion_ci_first_match_witness :
    (app_display_set_emotion wInit "Happy").err = EspErr.ok :=
  (C1_setEmotion_ci_first_match wInit "x" rfl).2.2.2.1

/-- C6: when initialized, `listening` sets the emotion to idle and then
dispatches a listen notification, in that order, exactly once per call, and
returns `ESP_OK`; `sleep` sets the emotion to sleepy; an unrecognized state
is rejected with `ESP_ERR_INVALID_ARG` without side effects. -/
theorem C6_system_state_mapping (w : World) (h : w.initialized = true)
    (n : Nat) :
    (app_display_system_state_changed w SystemState.listening).out
        = [Cmd.setAnimEmoji DISP_EMOTE_IDLE,
           Cmd.setEventMsg EmoteEvt.listen none]
    ∧ (app_display_system_state_changed w SystemState.listening).err
        = EspErr.ok
    ∧ (w.emote_handle.isSome = true →
        currentEmotionOf
            (app_display_system_state_changed w SystemState.listening).state
          = some DISP_EMOTE_IDLE)
    ∧ (app_display_system_state_changed w SystemState.sleep).out
        = [Cmd.setAnimEmoji DISP_EMOTE_SLEEPY]
    ∧ (w.emote_handle.isSome = true →
        currentEmotionOf
            (app_display_system_state_changed w SystemState.sleep).state
          = some DISP_EMOTE_SLEEPY)
    ∧ app_display_system_state_changed w (SystemState.unknown n)
        = ⟨EspErr.invalidArg, w, []⟩ := by
  refine ⟨?_, ?_, ?_, ?_, ?_, ?_⟩
  · simp [app_display_system_state_changed, app_display_set_emotion, h,
          find_idle_eq, emote_set_anim_emoji, emote_set_event_msg]
  · simp [app_display_system_state_changed, app_display_set_emotion, h,
          find_idle_eq, emote_set_anim_emoji, emote_set_event_msg]
  · intro he
    cases hx : w.emote_handle with
    | none => rw [hx] at he; exact Bool.noConfusion he
    | some es =>
      simp [app_display_system_state_changed, app_display_set_emotion, h,
            find_idle_eq, emote_set_anim_emoji, emote_set_event_msg, hx,
            currentEmotionOf]
  · simp [app_display_system_state_changed, app_display_set_emotion, h,
          find_sleepy_eq, emote_set_anim_emoji]
  · intro he
    cases hx : w.emote_handle with
    | none => rw [hx] at he; exact Bool.noConfusion he
    | some es =>
      simp [app_display_system_state_changed, app_display_set_emotion, h,
            find_sleepy_eq, emote_set_anim_emoji, hx, currentEmotionOf]
  · simp [app_display_system_state_changed, h]

/-- Witness for C6 at a concrete initialized state. -/
theorem C6_system_state_mapping_witness :
    (app_display_system_state_changed wInit SystemState.listening).out
        = [Cmd.setAnimEmoji DISP_EMOTE_IDLE,
           Cmd.setEventMsg EmoteEvt.listen none] :=
  (C6_system_state_mapping wInit rfl 99).1

/-- C7: `isEmotionValid` applies the same matching rule as `setEmotion` — it
returns true iff `setEmotion` on the same string succeeds when initialized —
a failing `setEmotion` leaves the state untouched and dispatches nothing,
and both reject `"zzz"`.  (`app_display_is_emotion_valid` takes no state at
all in this embedding, matching the C function, which reads and writes no
state and performs no `initialized` check.) -/
theorem C7_is_valid_iff_set_emotion (w : World) (s : String)
    (h : w.initialized = true) :
    (app_display_is_emotion_valid s = true ↔
      (app_display_set_emotion w s).err = EspErr.ok)
    ∧ ((app_display_set_emotion w s).err ≠ EspErr.ok →
        (app_display_set_emotion w s).state = w
        ∧ (app_display_set_emotion w s).out = [])
    ∧ app_display_is_emotion_valid "zzz" = false
    ∧ app_display_set_emotion w "zzz" = ⟨EspErr.invalidArg, w, []⟩ := by
  refine ⟨?_, ?_, by decide, ?_⟩
  · cases hf : valid_emotions.find? (fun c => emotionMatches s c) with
    | none =>
      have hall := List.find?_eq_none.mp hf
      simp only [app_display_is_emotion_valid, app_display_set_emotion, h,
                 if_true, hf, List.any_eq_true]
      constructor
      · rintro ⟨x, hx, hpx⟩
        have := hall x hx
        rw [hpx] at this
        exact absurd rfl this
      · intro he; exact EspErr.noConfusion he
    | some c =>
      have hp := List.find?_some hf
      have hmem := List.mem_of_find?_eq_some hf
      simp only [app_display_is_emotion_valid, app_display_set_emotion, h,
                 if_true, hf, List.any_eq_true]
      exact ⟨fun _ => trivial, fun _ => ⟨c, hmem, hp⟩⟩
  · cases hf : valid_emotions.find? (fun c => emotionMatches s c) with
    | none =>
      intro _
      simp only [app_display_set_emotion, h, if_true, hf]
      exact ⟨trivial, trivial⟩
    | some c =>
      intro he
      simp only [app_display_set_emotion, h, if_true, hf] at he
      exact absurd rfl he
  · simp [app_display_set_emotion, h,
          show valid_emotions.find? (fun c => emotionMatches "zzz" c)
            = none from by decide]

/-- Witness for C7 at a concrete initialized state. -/
theorem C7_is_valid_iff_set_emotion_witness :
    app_display_is_emotion_valid "SAD!!" = true ↔
      (app_display_set_emotion wInit "SAD!!").err = EspErr.ok :=
  (C7_is_valid_iff_set_emotion wInit "SAD!!" rfl).1

/-- C2 (evaluating the code at the failing input): a successful init from the
zero state registers `display_event_handler` only for the QR-display event —
the station connect/disconnect events are never subscribed — so delivering a
wifi-disconnected or wifi-connected event after init is a no-op: the status
text stays "Initializing..." instead of becoming "WiFi connecting..." /
"WiFi connected".  The handler's own wifi branches would set those texts if
the handler were ever invoked on them, which shows the subscription is the
missing piece. -/
theorem C2_wifi_events_unsubscribed :
    (app_display_init goodEnv w0).err = EspErr.ok
    ∧ currentEmotionOf postInit = some DISP_EMOTE_IDLE
    ∧ sysTextOf postInit = some (some "Initializing...")
    ∧ postInit.registrations = [EvtKey.netQrDisplay]
    ∧ EvtKey.wifiStaDisconnected ∉ postInit.registrations
    ∧ EvtKey.wifiStaConnected ∉ postInit.registrations
    ∧ deliver_event postInit EvtKey.wifiStaDisconnected none = (postInit, [])
    ∧ deliver_event postInit EvtKey.wifiStaConnected none = (postInit, [])
    ∧ sysTextOf (deliver_event postInit EvtKey.wifiStaDisconnected none).1
        ≠ some (some "WiFi connecting...")
    ∧ sysTextOf (deliver_event postInit EvtKey.wifiStaConnected none).1
        ≠ some (some "WiFi connected")
    ∧ sysTextOf (display_event_handler postInit EvtKey.wifiStaDisconnected none).1
        = some (some "WiFi connecting...")
    ∧ currentEmotionOf
        (display_event_handler postInit EvtKey.wifiStaDisconnected none).1
        = some DISP_EMOTE_IDLE
    ∧ sysTextOf (display_event_handler postInit EvtKey.wifiStaConnected none).1
        = some (some "WiFi connected") := by decide

/-- C3 (counterexample): in an environment where the `lcd_touch` device
lookup fails — the touch handle is absent — `app_display_init` does not
succeed: it propagates the lookup error and leaves the display
uninitialized, contradicting "init still succeeds, this is not reported as
an error". -/
theorem C3_touch_lookup_failure_aborts_init :
    (app_display_init noTouchEnv w0).err ≠ EspErr.ok
    ∧ (app_display_init noTouchEnv w0).err = EspErr.notFound
    ∧ (app_display_init noTouchEnv w0).state.initialized = false := by decide

/-- Helper: `init_display` fails with the NotFound-style error whenever the
`lcd_touch` device lookup fails, whatever the other lookups do. -/
theorem init_display_touch_lookup_fails (env : Env) (w : World)
    (h : env.lcd_touch_handle_ok = false) :
    init_display env w = ⟨EspErr.notFound, w, []⟩ := by
  by_cases h1 : env.display_lcd_handle_ok = false <;>
    by_cases h2 : env.display_lcd_config_ok = false <;>
      simp [init_display, h1, h2, h]

/-- C3 (amended): when the `lcd_touch` device lookup succeeds but yields a
null touch handle, init succeeds, the touch poller is simply never started,
and the engine handle independently only disables its own dependent steps
(`emote_handle` presence just mirrors `emote_init`); but when the touch
device lookup itself fails, init fails with the lookup error and the display
stays uninitialized. -/
theorem C3_null_touch_degrades_lookup_failure_aborts (e : Bool) :
    ((app_display_init ⟨true, true, true, false, true, e, 320, 240⟩ w0).err
        = EspErr.ok
      ∧ (app_display_init ⟨true, true, true, false, true, e, 320, 240⟩
          w0).state.initialized = true
      ∧ (app_display_init ⟨true, true, true, false, true, e, 320, 240⟩
          w0).state.touchPollerStarted = false
      ∧ Cmd.touchConfigure
          ∉ (app_display_init ⟨true, true, true, false, true, e, 320, 240⟩
              w0).out
      ∧ (app_display_init ⟨true, true, true, false, true, e, 320, 240⟩
          w0).state.emote_handle.isSome = e)
    ∧ ∀ env2 : Env, env2.lcd_touch_handle_ok = false →
        app_display_init env2 w0 = ⟨EspErr.notFound, w0, []⟩ := by
  constructor
  · cases e <;> decide
  · intro env2 h2
    have hd := init_display_touch_lookup_fails env2 w0 h2
    simp [app_display_init, hd, show w0.initialized = false from rfl]

/-- Witness for C3's amended theorem: the failure half applied to the
concrete lookup-failure environment, and the graceful half at concrete
dimensions. -/
theorem C3_null_touch_degrades_witness :
    app_display_init noTouchEnv w0 = ⟨EspErr.notFound, w0, []⟩
    ∧ (app_display_init ⟨true, true, true, false, true, true, 320, 240⟩
        w0).err = EspErr.ok :=
  ⟨(C3_null_touch_degrades_lookup_failure_aborts true).2 noTouchEnv rfl,
   (C3_null_touch_degrades_lookup_failure_aborts true).1.1⟩

/-- Helper: delivering an event for which the handler is not registered is a
no-op. -/
theorem deliver_event_not_registered (w : World) (k : EvtKey)
    (p : Option String) (h : k ∉ w.registrations) :
    deliver_event w k p = (w, []) := by
  simp [deliver_event, h]

/-- C4: with the QR-display registration in place (as after init), a first
QR-display delivery runs the QR handling logic — status prompt, hiding the
eye animation, pushing the QR payload — exactly once, unsubscribes as its
last action, and a second delivery to the same registration is a no-op. -/
theorem C4_qr_event_handled_once (w : World) (p : String)
    (hreg : w.registrations = [EvtKey.netQrDisplay])
    (hi : w.initialized = true) :
    Cmd.setEventMsg EmoteEvt.sys (some "Scan QR code with RainMaker")
        ∈ (deliver_event w EvtKey.netQrDisplay (some p)).2
    ∧ Cmd.setQrcodeData p ∈ (deliver_event w EvtKey.netQrDisplay (some p)).2
    ∧ (deliver_event w EvtKey.netQrDisplay (some p)).2.countP isQrPush = 1
    ∧ (deliver_event w EvtKey.netQrDisplay (some p)).2.getLast?
        = some (Cmd.evtUnregister EvtKey.netQrDisplay)
    ∧ (deliver_event w EvtKey.netQrDisplay (some p)).1.registrations = []
    ∧ deliver_event (deliver_event w EvtKey.netQrDisplay (some p)).1
        EvtKey.netQrDisplay (some p)
        = ((deliver_event w EvtKey.netQrDisplay (some p)).1, []) := by
  cases hx : w.emote_handle with
  | none =>
    have htr : (deliver_event w EvtKey.netQrDisplay (some p)).2
        = [Cmd.setEventMsg EmoteEvt.sys (some "Scan QR code with RainMaker"),
           Cmd.setQrcodeData p,
           Cmd.evtUnregister EvtKey.netQrDisplay] := by
      simp [deliver_event, display_event_handler, app_display_set_text,
            change_emotion_visibility, emote_set_qrcode_data,
            emote_set_event_msg, hreg, hi, hx]
    have hst : (deliver_event w EvtKey.netQrDisplay (some p)).1.registrations
        = [] := by
      simp [deliver_event, display_event_handler, app_display_set_text,
            change_emotion_visibility, emote_set_qrcode_data,
            emote_set_event_msg, hreg, hi, hx]
    refine ⟨?_, ?_, ?_, ?_, hst, ?_⟩
    · rw [htr]; simp
    · rw [htr]; simp
    · rw [htr]; simp [List.countP_cons, isQrPush]
    · rw [htr]; rfl
    · exact deliver_event_not_registered _ _ _ (by rw [hst]; simp)
  | some es =>
    have htr : (deliver_event w EvtKey.netQrDisplay (some p)).2
        = [Cmd.setEventMsg EmoteEvt.sys (some "Scan QR code with RainMaker"),
           Cmd.setVisible "eye_anim" false,
           Cmd.setQrcodeData p,
           Cmd.evtUnregister EvtKey.netQrDisplay] := by
      simp [deliver_event, display_event_handler, app_display_set_text,
            change_emotion_visibility, emote_set_qrcode_data,
            emote_set_event_msg, hreg, hi, hx]
    have hst : (deliver_event w EvtKey.netQrDisplay (some p)).1.registrations
        = [] := by
      simp [deliver_event, display_event_handler, app_display_set_text,
            change_emotion_visibility, emote_set_qrcode_data,
            emote_set_event_msg, hreg, hi, hx]
    refine ⟨?_, ?_, ?_, ?_, hst, ?_⟩
    · rw [htr]; simp
    · rw [htr]; simp
    · rw [htr]; simp [List.countP_cons, isQrPush]
    · rw [htr]; rfl
    · exact deliver_event_not_registered _ _ _ (by rw [hst]; simp)

/-- Witness for C4: both deliveries on the state produced by a successful
init. -/
theorem C4_qr_event_handled_once_witness :
    Cmd.setQrcodeData "QRDATA"
        ∈ (deliver_event postInit EvtKey.netQrDisplay (some "QRDATA")).2 :=
  (C4_qr_event_handled_once postInit "QRDATA" (by decide) (by decide)).2.1

end AppDisplay
